import Mathlib

/-!
Verification of the autocoder UI against its specification.

The repository is a single-page-application frontend: typed data contracts
mirrored from a backend (src/ui/src/lib/types.ts), an agent control panel
(AgentControl / StatusIndicator) and a guided spec-creation chat component
(src/ui/src/components/SpecCreationChat.tsx).  We shallowly embed the data
model, the render conditions and the event handlers as pure Lean functions
and prove the specification claims about them.  TypeScript `number` fields
are modelled as integers (no arithmetic is performed on them anywhere in
the embedded code), `Date` timestamps as naturals, optional / nullable
fields as `Option`.
-/

namespace Autocoder

/-! ## Data model from src/ui/src/lib/types.ts -/

/-- Per-project feature-completion statistics (`ProjectStats`, types.ts
lines 6-11): four numeric fields. -/
structure ProjectStats where
  passing : Int
  in_progress : Int
  total : Int
  percentage : Int
deriving DecidableEq, Repr

/-- Agent status union (`AgentStatus`, types.ts line 56):
the union of the literals `stopped`, `running`, `paused`, `crashed`. -/
inductive AgentStatus
  | stopped
  | running
  | paused
  | crashed
deriving DecidableEq, Repr

/-- Live progress WebSocket message (`WSProgressMessage`, types.ts lines
81-87): the `progress` discriminant field plus the same four numeric
fields as `ProjectStats`.  The discriminant is a singleton literal type,
so it is not stored; `WSProgressMessage.msgType` recovers it. -/
structure WSProgressMessage where
  passing : Int
  in_progress : Int
  total : Int
  percentage : Int
deriving DecidableEq, Repr

/-- The discriminant of every `WSProgressMessage` is the literal
`progress`. -/
def WSProgressMessage.msgType (_ : WSProgressMessage) : String := "progress"

/-- Dropping the discriminant from a `WSProgressMessage` leaves exactly a
`ProjectStats` record. -/
def WSProgressMessage.toStats (w : WSProgressMessage) : ProjectStats :=
  { passing := w.passing
    in_progress := w.in_progress
    total := w.total
    percentage := w.percentage }

/-- Attaching the `progress` discriminant to a `ProjectStats` record
gives a `WSProgressMessage`. -/
def ProjectStats.toWS (p : ProjectStats) : WSProgressMessage :=
  { passing := p.passing
    in_progress := p.in_progress
    total := p.total
    percentage := p.percentage }

/-- One selectable option of a structured question (`SpecQuestionOption`,
types.ts lines 121-124). -/
structure SpecQuestionOption where
  label : String
  description : String
deriving DecidableEq, Repr

/-- One structured multiple-choice question (`SpecQuestion`, types.ts
lines 126-131). -/
structure SpecQuestion where
  question : String
  header : String
  options : List SpecQuestionOption
  multiSelect : Bool
deriving DecidableEq, Repr

/-- The spec-chat server message union (`SpecChatServerMessage`, types.ts
lines 133-179): one constructor per interface of the union, each carrying
the payload fields of that interface beside the discriminant. -/
inductive SpecChatServerMessage
  | text (content : String)
  | question (questions : List SpecQuestion) (tool_id : Option String)
  | spec_complete (path : String)
  | file_written (path : String)
  | complete
  | error (content : String)
  | pong
  | response_done
deriving DecidableEq, Repr

/-- The `type` discriminant field of a `SpecChatServerMessage`. -/
def SpecChatServerMessage.msgType : SpecChatServerMessage → String
  | .text _ => "text"
  | .question _ _ => "question"
  | .spec_complete _ => "spec_complete"
  | .file_written _ => "file_written"
  | .complete => "complete"
  | .error _ => "error"
  | .pong => "pong"
  | .response_done => "response_done"

/-- The eight discriminant values of the `SpecChatServerMessage` union, in
declaration order (types.ts lines 171-179). -/
def specChatServerMessageTypes : List String :=
  ["text", "question", "spec_complete", "file_written",
   "complete", "error", "pong", "response_done"]

/-- The path payload carried by the file-bearing server messages
(`SpecChatCompleteMessage.path`, types.ts line 146, and
`SpecChatFileWrittenMessage.path`, line 151). -/
def SpecChatServerMessage.pathPayload : SpecChatServerMessage → Option String
  | .spec_complete p => some p
  | .file_written p => some p
  | _ => none

/-- Display role of a UI chat message (`ChatMessage.role`, types.ts
line 184). -/
inductive ChatRole
  | user
  | assistant
  | system
deriving DecidableEq, Repr

/-- UI chat message for display (`ChatMessage`, types.ts lines 182-189);
the `Date` timestamp is modelled as a natural number. -/
structure ChatMessage where
  id : String
  role : ChatRole
  content : String
  timestamp : Nat
  questions : Option (List SpecQuestion)
  isStreaming : Option Bool
deriving DecidableEq, Repr

/-! ## AgentControl and StatusIndicator
(src/ui/src/components, rendered from the types.ts contracts) -/

/-- Payload of the start-agent mutation as built by `handleStart`:
`{ yoloMode: yoloEnabled, model }`. -/
structure StartAgentPayload where
  yoloMode : Bool
  model : String
deriving DecidableEq, Repr

/-- A call issued to one of the four agent mutations.  Only the start
mutation carries a payload; stop, pause and resume are invoked with no
argument. -/
inductive MutationCall
  | startCall (payload : StartAgentPayload)
  | stopCall
  | pauseCall
  | resumeCall
deriving DecidableEq, Repr

/-- Local component state of `AgentControl`: the YOLO toggle
(`useState(false)`) and the selected model (`useState` with a default
model string). -/
structure AgentControlState where
  yoloEnabled : Bool
  model : String
deriving DecidableEq, Repr

/-- `handleStart`: `startAgent.mutate({ yoloMode: yoloEnabled, model })`. -/
def handleStart (s : AgentControlState) : MutationCall :=
  .startCall { yoloMode := s.yoloEnabled, model := s.model }

/-- `handleStop`: `stopAgent.mutate()` - no payload. -/
def handleStop : MutationCall := .stopCall

/-- `handlePause`: `pauseAgent.mutate()` - no payload. -/
def handlePause : MutationCall := .pauseCall

/-- `handleResume`: `resumeAgent.mutate()` - no payload. -/
def handleResume : MutationCall := .resumeCall

/-- The interactive elements that can appear in the control-button group
of `AgentControl`. -/
inductive ControlElement
  | modelSelector
  | yoloToggle
  | startButton
  | pauseButton
  | stopButton
  | resumeButton
deriving DecidableEq, Repr

/-- `const isStopped`: status equals `stopped` or status equals `crashed`. -/
def isStopped (status : AgentStatus) : Bool :=
  status == .stopped || status == .crashed

/-- The control-button group rendered by `AgentControl`: the conditional
JSX chain: if `isStopped` then select, YOLO toggle and start; else if status
equals `running` then pause and stop; else if status equals `paused` then
resume and stop; else null. -/
def controlButtons (status : AgentStatus) : List ControlElement :=
  if isStopped status then [.modelSelector, .yoloToggle, .startButton]
  else if status == .running then [.pauseButton, .stopButton]
  else if status == .paused then [.resumeButton, .stopButton]
  else []

/-- One entry of the `statusConfig` object of `StatusIndicator`: color, label
and pulse flag. -/
structure StatusConfig where
  color : String
  label : String
  pulse : Bool
deriving DecidableEq, Repr

/-- The `statusConfig` object literal of `StatusIndicator`, as the list of
its key/value entries in declaration order. -/
def statusConfigEntries : List (AgentStatus × StatusConfig) :=
  [(.stopped,
    { color := "var(--color-neo-text-secondary)", label := "Stopped", pulse := false }),
   (.running,
    { color := "var(--color-neo-done)", label := "Running", pulse := true }),
   (.paused,
    { color := "var(--color-neo-pending)", label := "Paused", pulse := false }),
   (.crashed,
    { color := "var(--color-neo-danger)", label := "Crashed", pulse := true })]

/-- The property access `statusConfig[status]`: a lookup that yields
`none` when the key has no entry (the TypeScript `undefined`). -/
def statusConfigLookup (status : AgentStatus) : Option StatusConfig :=
  (statusConfigEntries.find? (fun e => e.1 == status)).map Prod.snd

/-! ## SpecCreationChat
(src/ui/src/components/SpecCreationChat.tsx) -/

/-- Connection status of the spec-chat channel, as distinguished by the
`ConnectionIndicator` switch of the component: `connected`, `connecting`,
`error`, and the default branch (disconnected). -/
inductive ConnectionStatus
  | connected
  | connecting
  | error
  | disconnected
deriving DecidableEq, Repr

/-- The state visible to the render of `SpecCreationChat`: its own `input` and
`error` `useState` cells plus the fields destructured from the
`useSpecChat` hook. -/
structure SpecChatState where
  input : String
  errorBanner : Option String
  messages : List ChatMessage
  isLoading : Bool
  isComplete : Bool
  connectionStatus : ConnectionStatus
  currentQuestions : Option (List SpecQuestion)
deriving DecidableEq, Repr

/-- The message-input area (lines 209-240) is rendered under the guard
`!isComplete`. -/
def inputAreaRendered (s : SpecChatState) : Bool :=
  !s.isComplete

/-- The completion footer (lines 243-258) is rendered under the guard
`isComplete`. -/
def completionFooterRendered (s : SpecChatState) : Bool :=
  s.isComplete

/-- The empty-state card (lines 166-186) is rendered under the guard
`messages.length === 0 && !isLoading`. -/
def emptyStateCardRendered (s : SpecChatState) : Bool :=
  s.messages.length == 0 && !s.isLoading

/-- The Retry Connection button (lines 175-183) is rendered inside the
empty-state card under the additional guard that `connectionStatus` equals
`error`. -/
def retryButtonRendered (s : SpecChatState) : Bool :=
  emptyStateCardRendered s && s.connectionStatus == .error

/-- JavaScript `String.prototype.trim()`: the string with leading and
trailing whitespace characters removed, on the underlying character
list. -/
def strTrim (s : String) : String :=
  ⟨((s.data.dropWhile Char.isWhitespace).reverse.dropWhile Char.isWhitespace).reverse⟩

/-- The `disabled` flag of the text input (line 224): loading with no
pending questions, or `connectionStatus` differing from `connected`. -/
def inputDisabled (s : SpecChatState) : Bool :=
  (s.isLoading && s.currentQuestions.isNone) || s.connectionStatus != .connected

/-- The `disabled` flag of the send button (line 228): empty trimmed input,
or loading with no pending questions, or `connectionStatus` differing from
`connected`. -/
def sendButtonDisabled (s : SpecChatState) : Bool :=
  (strTrim s.input).isEmpty
    || (s.isLoading && s.currentQuestions.isNone)
    || s.connectionStatus != .connected

/-- `handleSendMessage` (lines 68-74): returns the text handed to
`sendMessage` (if any) together with the new `input` state.  If the
trimmed input is empty or a response is loading it returns early, sending
nothing and leaving the input untouched; otherwise it sends the trimmed
text and clears the input. -/
def handleSendMessage (s : SpecChatState) : Option String × String :=
  let trimmed := strTrim s.input
  if trimmed.isEmpty || s.isLoading then (none, s.input)
  else (some trimmed, "")

/-- Callbacks the chat component can invoke on its props. -/
inductive UIAction
  | callOnComplete (specPath : String)
  | callOnCancel
deriving DecidableEq, Repr

/-- `onClick` of the Continue to Project button in the completion footer
(line 251): a closure invoking `onComplete` with the empty string. -/
def continueToProjectClick : UIAction :=
  .callOnComplete ""

/-! ### Mount-effect lifecycle -/

/-- The lifecycle operations of the `useSpecChat` hook invoked by the
mount effect and retry button of the component. -/
inductive LifecycleAction
  | start
  | disconnect
deriving DecidableEq, Repr

/-- The dependency array of the mount effect (line 54): the empty
array `[]`. -/
def mountEffectDeps : List Nat := []

/-- The body of the mount effect (line 49): it invokes `start()`. -/
def mountEffectBody : List LifecycleAction := [.start]

/-- The cleanup returned by the mount effect (lines 51-53): it invokes
`disconnect()`. -/
def mountEffectCleanup : List LifecycleAction := [.disconnect]

/-- `onClick` of the Retry Connection button (line 177): `start`. -/
def retryButtonClick : LifecycleAction := .start

/-- What a dependency-array effect contributes after render `i` of a
mounted lifetime: after the first render its body runs; after a re-render
its cleanup and body run exactly when the dependency array changed since
the previous render; otherwise nothing. -/
def effectRunsAt (deps : Nat → List Nat) (body cleanup : List LifecycleAction)
    (i : Nat) : List LifecycleAction :=
  if i = 0 then body
  else if deps i = deps (i - 1) then []
  else cleanup ++ body

/-- The full trace of lifecycle actions an effect produces over a mounted
lifetime of `numRenders` renders followed by unmount: the per-render
contributions in order, then the cleanup at unmount (the cleanup runs at
unmount only if the component rendered at all). -/
def effectTrace (deps : Nat → List Nat) (body cleanup : List LifecycleAction)
    (numRenders : Nat) : List LifecycleAction :=
  ((List.range numRenders).flatMap (effectRunsAt deps body cleanup))
    ++ (if numRenders = 0 then [] else cleanup)

/-- The lifecycle trace of the mount effect of `SpecCreationChat`: its
dependency array is the constant empty array, its body calls `start`, its
cleanup calls `disconnect`. -/
def specChatLifecycleTrace (numRenders : Nat) : List LifecycleAction :=
  effectTrace (fun _ => mountEffectDeps) mountEffectBody mountEffectCleanup numRenders

/-! ## Helper lemmas -/

/-- The per-render contributions of the mount effect over any positive
number of renders collapse to a single `start`: the dependency array is
constant, so the effect body never re-runs after the first render. -/
theorem mountEffect_flatMap (n : Nat) :
    (List.range (n + 1)).flatMap
        (effectRunsAt (fun _ => mountEffectDeps) mountEffectBody mountEffectCleanup)
      = [LifecycleAction.start] := by
  induction n with
  | zero => rfl
  | succ n ih =>
    rw [List.range_succ, List.flatMap_append, ih]
    simp [effectRunsAt]

/-- Over any mounted lifetime with at least one render, the mount effect
of `SpecCreationChat` produces exactly the trace `start` then
`disconnect`. -/
theorem specChatLifecycleTrace_succ (n : Nat) :
    specChatLifecycleTrace (n + 1)
      = [LifecycleAction.start, LifecycleAction.disconnect] := by
  unfold specChatLifecycleTrace effectTrace
  rw [mountEffect_flatMap]
  rfl

/-! ## Claims -/

/-- C1: the spec-chat server contract is a closed union over exactly the
eight discriminants `text`, `question`, `spec_complete`, `file_written`,
`complete`, `error`, `pong`, `response_done`: every message carries
exactly one of them (its discriminant occurs exactly once in the list of
the eight), and a string is the discriminant of some message exactly when
it is one of the eight. -/
theorem claim_C1 :
    (∀ m : SpecChatServerMessage,
      specChatServerMessageTypes.count m.msgType = 1) ∧
    (∀ s : String,
      (∃ m : SpecChatServerMessage, m.msgType = s) ↔
        s ∈ specChatServerMessageTypes) := by
  constructor
  · intro m
    cases m <;> simp only [SpecChatServerMessage.msgType] <;> decide
  · intro s
    constructor
    · rintro ⟨m, rfl⟩
      cases m <;> simp only [SpecChatServerMessage.msgType] <;> decide
    · intro hs
      simp only [specChatServerMessageTypes, List.mem_cons,
        List.not_mem_nil, or_false] at hs
      rcases hs with rfl | rfl | rfl | rfl | rfl | rfl | rfl | rfl
      · exact ⟨.text "", rfl⟩
      · exact ⟨.question [] none, rfl⟩
      · exact ⟨.spec_complete "", rfl⟩
      · exact ⟨.file_written "", rfl⟩
      · exact ⟨.complete, rfl⟩
      · exact ⟨.error "", rfl⟩
      · exact ⟨.pong, rfl⟩
      · exact ⟨.response_done, rfl⟩

/-- C2: across any mounted lifetime of the component (one mount render
plus any number of re-renders, then unmount), the mount effect invokes
`start` exactly once and ends with the cleanup, which invokes
`disconnect`; the retry button re-invokes `start` and is rendered exactly
when the connection status is `error`, the transcript is empty and
nothing is loading. -/
theorem claim_C2 :
    (∀ n : Nat,
      (specChatLifecycleTrace (n + 1)).count LifecycleAction.start = 1 ∧
      (specChatLifecycleTrace (n + 1)).getLast? = some LifecycleAction.disconnect) ∧
    mountEffectCleanup = [LifecycleAction.disconnect] ∧
    retryButtonClick = LifecycleAction.start ∧
    (∀ s : SpecChatState,
      retryButtonRendered s = true ↔
        (s.connectionStatus = ConnectionStatus.error ∧
          s.messages = [] ∧ s.isLoading = false)) := by
  refine ⟨fun n => ?_, rfl, rfl, fun s => ?_⟩
  · rw [specChatLifecycleTrace_succ]
    exact ⟨rfl, rfl⟩
  · simp only [retryButtonRendered, emptyStateCardRendered, Bool.and_eq_true,
      beq_iff_eq, Bool.not_eq_true', List.length_eq_zero]
    tauto

/-- C3: the control panel offers exactly the actions valid in each agent
state: model selector, YOLO toggle and Start when stopped or crashed;
Pause and Stop when running; Resume and Stop when paused; and nothing
else in any state. -/
theorem claim_C3 :
    controlButtons .stopped = [.modelSelector, .yoloToggle, .startButton] ∧
    controlButtons .crashed = [.modelSelector, .yoloToggle, .startButton] ∧
    controlButtons .running = [.pauseButton, .stopButton] ∧
    controlButtons .paused = [.resumeButton, .stopButton] ∧
    (∀ st : AgentStatus, ∀ e : ControlElement,
      e ∈ controlButtons st ↔
        (((st = .stopped ∨ st = .crashed) ∧
            (e = .modelSelector ∨ e = .yoloToggle ∨ e = .startButton)) ∨
          (st = .running ∧ (e = .pauseButton ∨ e = .stopButton)) ∨
          (st = .paused ∧ (e = .resumeButton ∨ e = .stopButton)))) := by
  refine ⟨rfl, rfl, rfl, rfl, ?_⟩
  intro st e
  cases st <;> cases e <;> decide

/-- C4: a start request always carries the locally selected state: for
every local control-panel state, `handleStart` issues the start mutation
with `yoloMode` equal to the YOLO toggle and `model` equal to the
selected model, while `handleStop`, `handlePause` and `handleResume`
issue their mutations with no payload. -/
theorem claim_C4 :
    (∀ s : AgentControlState,
      handleStart s
        = MutationCall.startCall { yoloMode := s.yoloEnabled, model := s.model }) ∧
    handleStop = MutationCall.stopCall ∧
    handlePause = MutationCall.pauseCall ∧
    handleResume = MutationCall.resumeCall :=
  ⟨fun _ => rfl, rfl, rfl, rfl⟩

/-- C5: once the flow reports completion, the message-input area is no
longer rendered and the completion footer is rendered instead; while the
flow is not complete, the footer is never rendered.  The two regions are
rendered under complementary guards. -/
theorem claim_C5 :
    ∀ s : SpecChatState,
      (inputAreaRendered s = true ↔ s.isComplete = false) ∧
      (completionFooterRendered s = true ↔ s.isComplete = true) ∧
      inputAreaRendered s = !completionFooterRendered s := by
  intro s
  refine ⟨?_, Iff.rfl, rfl⟩
  simp [inputAreaRendered, Bool.not_eq_true']

/-- C6: `WSProgressMessage` mirrors `ProjectStats` exactly: dropping the
`progress` discriminant and keeping the four numeric fields is a bijection
between the two types that preserves every field. -/
theorem claim_C6 :
    (∀ w : WSProgressMessage,
      w.toStats.toWS = w ∧
      w.msgType = "progress" ∧
      w.toStats.passing = w.passing ∧
      w.toStats.in_progress = w.in_progress ∧
      w.toStats.total = w.total ∧
      w.toStats.percentage = w.percentage) ∧
    (∀ p : ProjectStats, p.toWS.toStats = p) :=
  ⟨fun _ => ⟨rfl, rfl, rfl, rfl, rfl, rfl⟩, fun _ => rfl⟩

/-- C7: the `statusConfig` lookup of `StatusIndicator` is total over the
status domain: for every `AgentStatus` value the lookup yields a defined
configuration, and its `pulse` flag is true exactly when the status is
`running` or `crashed`. -/
theorem claim_C7 :
    ∀ st : AgentStatus,
      (statusConfigLookup st).isSome = true ∧
      ((statusConfigLookup st).map StatusConfig.pulse = some true ↔
        (st = AgentStatus.running ∨ st = AgentStatus.crashed)) := by
  intro st
  cases st <;> exact ⟨rfl, by decide⟩

/-- C8: although a `spec_complete` server message carries the written
spec path, the Continue to Project button always invokes `onComplete`
with the empty string, never with that path (whenever the path is
nonempty). -/
theorem claim_C8 :
    continueToProjectClick = UIAction.callOnComplete "" ∧
    (∀ p : String, p ≠ "" →
      (SpecChatServerMessage.spec_complete p).pathPayload = some p ∧
      continueToProjectClick ≠ UIAction.callOnComplete p) := by
  refine ⟨rfl, fun p hp => ⟨rfl, fun h => ?_⟩⟩
  simp only [continueToProjectClick, UIAction.callOnComplete.injEq] at h
  exact hp h.symm

/-- Witness for C8 at the concrete nonempty path `specs/app.md`. -/
theorem claim_C8_witness :
    (SpecChatServerMessage.spec_complete "specs/app.md").pathPayload
        = some "specs/app.md" ∧
    continueToProjectClick ≠ UIAction.callOnComplete "specs/app.md" :=
  claim_C8.2 "specs/app.md" (by decide)

/-- C9: `handleSendMessage` is a guarded no-op: when the input trims to
the empty string or a response is loading it sends nothing and leaves the
input unchanged; otherwise it sends exactly the trimmed input and resets
the input to the empty string. -/
theorem claim_C9 :
    ∀ s : SpecChatState,
      ((strTrim s.input = "" ∨ s.isLoading = true) →
        handleSendMessage s = (none, s.input)) ∧
      (strTrim s.input ≠ "" → s.isLoading = false →
        handleSendMessage s = (some (strTrim s.input), "")) := by
  intro s
  constructor
  · rintro (h | h) <;>
      simp [handleSendMessage, h, String.isEmpty_iff]
  · intro h1 h2
    simp [handleSendMessage, h1, h2, String.isEmpty_iff]

/-- Witness for C9: a nonempty padded input is sent trimmed and clears
the input; a whitespace-only input sends nothing and leaves the input
unchanged. -/
theorem claim_C9_witness :
    handleSendMessage
        { input := "  build a todo app  ", errorBanner := none, messages := [],
          isLoading := false, isComplete := false,
          connectionStatus := ConnectionStatus.connected, currentQuestions := none }
      = (some (strTrim "  build a todo app  "), "") ∧
    handleSendMessage
        { input := "   ", errorBanner := none, messages := [],
          isLoading := false, isComplete := false,
          connectionStatus := ConnectionStatus.connected, currentQuestions := none }
      = (none, "   ") :=
  ⟨(claim_C9 _).2 (by decide) rfl, (claim_C9 _).1 (Or.inl (by decide))⟩

/-- C10: no user message can be submitted while the connection is not
established: whenever the connection status differs from `connected`,
both the text input and the send button are disabled, and the same holds
whenever a response is loading with no pending questions. -/
theorem claim_C10 :
    ∀ s : SpecChatState,
      (s.connectionStatus ≠ ConnectionStatus.connected ∨
        (s.isLoading = true ∧ s.currentQuestions = none)) →
      inputDisabled s = true ∧ sendButtonDisabled s = true := by
  intro s h
  rcases h with h | ⟨hl, hq⟩
  · have hb : (s.connectionStatus != ConnectionStatus.connected) = true := by
      simpa [bne_iff_ne] using h
    exact ⟨by simp [inputDisabled, hb], by simp [sendButtonDisabled, hb]⟩
  · exact ⟨by simp [inputDisabled, hl, hq], by simp [sendButtonDisabled, hl, hq]⟩

/-- Witness for C10 at a concrete state whose connection status is
`error` (not `connected`). -/
theorem claim_C10_witness :
    inputDisabled
        { input := "hello", errorBanner := none, messages := [],
          isLoading := false, isComplete := false,
          connectionStatus := ConnectionStatus.error, currentQuestions := none }
      = true ∧
    sendButtonDisabled
        { input := "hello", errorBanner := none, messages := [],
          isLoading := false, isComplete := false,
          connectionStatus := ConnectionStatus.error, currentQuestions := none }
      = true :=
  claim_C10 _ (Or.inl (by decide))

end Autocoder
